import Mathlib

/-!
# Verification of the route-license subsystem of the driving-test backend

Shallow embedding of `src/routes/routes.js` (first variant) together with the
schema of `route_licenses`, `route_links`, `route_settings` and
`naas_access_tokens` (SQL setup file).

Timestamps are modelled as minutes since the Unix epoch (`Int`).  JavaScript
`Date` month/day arithmetic (`setMonth(getMonth()+3)`, `setDate(getDate()+30)`,
`setHours(+h)`, `setMinutes(+30)`) is implemented through the standard
civil-calendar conversion, which matches the normalisation JavaScript performs
(day overflow rolls into the following month exactly as in `Date`).
-/

/-- Days from the civil date (year, month 1..12, day) to the epoch day count,
via the standard Gregorian conversion.  A day value beyond the month's length
rolls over, as JavaScript `Date` normalisation does. -/
def daysFromCivil (y m d : Int) : Int :=
  let y2 := if m ≤ 2 then y - 1 else y
  let era := y2.fdiv 400
  let yoe := y2 - era * 400
  let mp := if m > 2 then m - 3 else m + 9
  let doy := (153 * mp + 2).fdiv 5 + d - 1
  let doe := yoe * 365 + yoe.fdiv 4 - yoe.fdiv 100 + doy
  era * 146097 + doe - 719468

/-- Civil date (year, month 1..12, day 1..31) from an epoch day count. -/
def civilFromDays (z0 : Int) : Int × Int × Int :=
  let z := z0 + 719468
  let era := z.fdiv 146097
  let doe := z - era * 146097
  let yoe := (doe - doe.fdiv 1460 + doe.fdiv 36524 - doe.fdiv 146096).fdiv 365
  let y := yoe + era * 400
  let doy := doe - (365 * yoe + yoe.fdiv 4 - yoe.fdiv 100)
  let mp := (5 * doy + 2).fdiv 153
  let d := doy - (153 * mp + 2).fdiv 5 + 1
  let m := if mp < 10 then mp + 3 else mp - 9
  (if m ≤ 2 then y + 1 else y, m, d)

def minutesPerDay : Int := 1440

/-- `d.setMonth(d.getMonth() + n)` on a timestamp in minutes:
convert to a civil date, add `n` to the month with year carry, convert back. -/
def addMonthsJS (t : Int) (n : Int) : Int :=
  let day := t.fdiv minutesPerDay
  let rem := t - day * minutesPerDay
  let c := civilFromDays day
  let mi := (c.2.1 - 1) + n
  let y2 := c.1 + mi.fdiv 12
  let m2 := mi.emod 12 + 1
  daysFromCivil y2 m2 c.2.2 * minutesPerDay + rem

/-- `d.setDate(d.getDate() + n)`: adding `n` days to an epoch-based timestamp. -/
def addDaysJS (t : Int) (n : Int) : Int := t + n * minutesPerDay

/-- `d.setHours(d.getHours() + n)`. -/
def addHoursJS (t : Int) (n : Int) : Int := t + n * 60

/-- `d.setMinutes(d.getMinutes() + n)`. -/
def addMinutesJS (t : Int) (n : Int) : Int := t + n

/-- `new Date('2099-12-31T23:59:59Z')`, the synthetic admin license expiry. -/
def permanentExpiry : Int := daysFromCivil 2099 12 31 * minutesPerDay + 23 * 60 + 59

/-! ## Data model (tables from the SQL setup file) -/

/-- A row of `route_licenses`.  `stripe_payment_intent_id` and
`stripe_checkout_session_id` are nullable and carry UNIQUE constraints;
`is_active` defaults to `true` on insert. -/
structure License where
  user_id : String
  stripe_payment_intent_id : Option String
  stripe_checkout_session_id : Option String
  expires_at : Int
  is_active : Bool
deriving Repr, DecidableEq

/-- A row of `route_links`. `link_token` carries a UNIQUE constraint. -/
structure RouteLink where
  user_id : String
  centre_name : String
  route_number : Int
  link_token : String
  expires_at : Int
  is_used : Bool
  last_accessed_at : Option Int
deriving Repr, DecidableEq

/-- A row of `naas_access_tokens` (also used by the Tallaght endpoints). -/
structure NaasToken where
  user_id : String
  access_token : String
  expires_at : Int
  is_used : Bool
  last_accessed_at : Option Int
deriving Repr, DecidableEq

/-- The relational store. -/
structure DBState where
  licenses : List License
  links : List RouteLink
  naasTokens : List NaasToken
deriving Repr, DecidableEq

/-- Process environment relevant to the handlers: the `ADMIN_USER_IDS`
allow-list, and two failure modes of the store — `dbDown` (every query fails
with a generic error) and `isActiveMissing` (the `is_active` column is absent,
so the filtered license query fails with an error naming `is_active`). -/
structure AppEnv where
  adminUserIds : List String
  dbDown : Bool
  isActiveMissing : Bool
deriving Repr, DecidableEq

/-- What `hasActiveLicense` returns to its callers: either the row's
`expires_at` (from `result.rows[0]`) or the synthetic permanent license. -/
structure ActiveLicense where
  expires_at : Int
  is_permanent : Bool
deriving Repr, DecidableEq

/-! ## Store primitives -/

/-- Number of license rows carrying the given payment-intent id. -/
def countPI (ls : List License) (p : String) : Nat :=
  (ls.filter (fun l => l.stripe_payment_intent_id == some p)).length

/-- Does inserting a row with this `stripe_payment_intent_id` violate the
UNIQUE constraint?  SQL `NULL` (`none`) never conflicts. -/
def piConflict (ls : List License) : Option String → Bool
  | none => false
  | some p => ls.any (fun l => l.stripe_payment_intent_id == some p)

/-- Does inserting a row with this `stripe_checkout_session_id` violate the
UNIQUE constraint? -/
def csConflict (ls : List License) : Option String → Bool
  | none => false
  | some c => ls.any (fun l => l.stripe_checkout_session_id == some c)

/-- `INSERT INTO route_licenses ...`: fails (the driver throws) exactly when a
UNIQUE constraint on either payment-intent id or checkout-session id is
violated; otherwise appends the row. -/
def insertLicense (s : DBState) (l : License) : Except Unit DBState :=
  if piConflict s.licenses l.stripe_payment_intent_id
      || csConflict s.licenses l.stripe_checkout_session_id then
    .error ()
  else
    .ok { s with licenses := s.licenses ++ [l] }

/-- `ORDER BY expires_at DESC LIMIT 1`: the row with the maximal
`expires_at` (first such row on ties). -/
def topByExpiry : List License → Option License
  | [] => none
  | l :: ls =>
    match topByExpiry ls with
    | none => some l
    | some b => if b.expires_at > l.expires_at then some b else some l

/-! ## `hasActiveLicense` -/

/-- The rows of the filtered license query
`WHERE user_id = $1 AND is_active = true AND expires_at > NOW()`. -/
def activeLicenseRows (s : DBState) (now : Int) (userId : String) : List License :=
  s.licenses.filter (fun l => l.user_id == userId && l.is_active && l.expires_at > now)

/-- The rows of the fallback license query issued when the `is_active` column
is absent: `WHERE user_id = $1 AND expires_at > NOW()`. -/
def licenseRowsNoActiveCol (s : DBState) (now : Int) (userId : String) : List License :=
  s.licenses.filter (fun l => l.user_id == userId && l.expires_at > now)

/-- `hasActiveLicense(userId)` from `routes.js`:
admin allow-list first (synthetic permanent license); then the license query
filtered by `is_active = true AND expires_at > NOW()`, falling back to the
unfiltered-by-`is_active` variant when the column is missing; any other query
failure is caught and turned into `null`. -/
def hasActiveLicense (env : AppEnv) (s : DBState) (now : Int) (userId : String) :
    Option ActiveLicense :=
  if env.adminUserIds.contains userId then
    some { expires_at := permanentExpiry, is_permanent := true }
  else if env.dbDown then
    none
  else
    match topByExpiry
        (if env.isActiveMissing then licenseRowsNoActiveCol s now userId
         else activeLicenseRows s now userId) with
    | some l => some { expires_at := l.expires_at, is_permanent := false }
    | none => none

/-! ## `getLinkExpiryHours` -/

/-- `getLinkExpiryHours()`: reads `route_settings` row 1; a query failure or a
missing/zero value falls back to the hardcoded default 12
(`result.rows[0]?.link_expiry_hours || 12`). -/
def getLinkExpiryHours (dbDown : Bool) (settings : Option Int) : Int :=
  if dbDown then 12
  else
    match settings with
    | some h => if h == 0 then 12 else h
    | none => 12

/-! ## `POST /routes/create-payment-intent` -/

/-- A JavaScript number as produced by `parseInt`: an integer or `NaN`. -/
inductive JSNum where
  | num (n : Int)
  | nan
deriving Repr, DecidableEq

/-- JavaScript truthiness of a number: `0` and `NaN` are falsy. -/
def JSNum.truthy : JSNum → Bool
  | .num n => n != 0
  | .nan => false

/-- JavaScript `a || b` on numbers, where `a` may be `null` (field absent or
falsy in the request body). -/
def firstTruthy (a : Option JSNum) (b : JSNum) : JSNum :=
  match a with
  | some v => if v.truthy then v else b
  | none => b

/-- The handler's rejection test `isNaN(price) || price <= 0`. -/
def JSNum.invalidPrice : JSNum → Bool
  | .nan => true
  | .num n => n ≤ 0

/-- `!requestedAmount || requestedAmount >= 1399`: the guard that decides
whether the existing-license check runs (full-bundle purchase). -/
def bundleGuard : Option JSNum → Bool
  | none => true
  | some .nan => true
  | some (.num n) => n == 0 || n ≥ 1399

/-- Outcome of `POST /routes/create-payment-intent`. -/
inductive CPIResult where
  | notConfigured
  | invalidAmount
  | alreadyLicensed (expiresAt : Int)
  | intent (amount : Int) (purchaseType : String)
deriving Repr, DecidableEq

/-- HTTP status of each `create-payment-intent` outcome. -/
def CPIResult.httpStatus : CPIResult → Nat
  | .notConfigured => 500
  | .invalidAmount => 400
  | .alreadyLicensed _ => 400
  | .intent _ _ => 200

/-- `POST /routes/create-payment-intent`.
`bodyAmount` is `parseInt(req.body.amount)` when `req.body.amount` is truthy,
`none` otherwise; `defaultPrice` is `parseInt(ROUTES_LICENSE_PRICE || '1399')`.
The effective price is `requestedAmount || defaultPrice`; it is rejected when
`NaN` or non-positive; the existing-license check runs only for a full-bundle
purchase; the created intent carries `purchase_type` of `bundle` when the
price reaches 1399 and `single` below. -/
def createPaymentIntent (stripeConfigured : Bool) (env : AppEnv) (s : DBState)
    (now : Int) (userId : String) (bodyAmount : Option JSNum)
    (defaultPrice : JSNum) : CPIResult :=
  if !stripeConfigured then .notConfigured
  else
    let price := firstTruthy bodyAmount defaultPrice
    if price.invalidPrice then .invalidAmount
    else
      let amt := match price with | .num n => n | .nan => 0
      let mk : CPIResult := .intent amt (if amt ≥ 1399 then "bundle" else "single")
      if bundleGuard bodyAmount then
        match hasActiveLicense env s now userId with
        | some lic => .alreadyLicensed lic.expires_at
        | none => mk
      else mk

/-! ## `POST /routes/confirm-payment` -/

/-- The fields of a Stripe PaymentIntent the handlers read. -/
structure PaymentIntent where
  id : String
  metadata_user_id : Option String
  metadata_purchase_type : Option String
  amount : Int
  status : String
deriving Repr, DecidableEq

/-- Outcome of `POST /routes/confirm-payment`. -/
inductive ConfirmResult where
  | badRequest (msg : String)
  | forbidden
  | serverError
  | success (expiresAt : Int)
deriving Repr, DecidableEq

/-- HTTP status of each `confirm-payment` outcome. -/
def ConfirmResult.httpStatus : ConfirmResult → Nat
  | .badRequest _ => 400
  | .forbidden => 403
  | .serverError => 500
  | .success _ => 200

/-- `POST /routes/confirm-payment`.  `stripeLookup` models
`stripe.paymentIntents.retrieve` (`none` = the retrieve call throws, which the
outer catch turns into 500).  Checks, in order: id present, metadata user
matches the caller, status succeeded, no existing license for the id; then
inserts a license expiring 3 months out. -/
def confirmPayment (stripeLookup : String → Option PaymentIntent)
    (s : DBState) (now : Int) (userId : String) (paymentIntentId : Option String) :
    ConfirmResult × DBState :=
  match paymentIntentId with
  | none => (.badRequest "Payment intent ID required", s)
  | some piId =>
    match stripeLookup piId with
    | none => (.serverError, s)
    | some intent =>
      if intent.metadata_user_id != some userId then (.forbidden, s)
      else if intent.status != "succeeded" then (.badRequest "Payment not completed", s)
      else if s.licenses.any (fun l => l.stripe_payment_intent_id == some piId) then
        (.badRequest "License already created for this payment", s)
      else
        match insertLicense s
            { user_id := userId, stripe_payment_intent_id := some piId,
              stripe_checkout_session_id := none,
              expires_at := addMonthsJS now 3, is_active := true } with
        | .ok s2 => (.success (addMonthsJS now 3), s2)
        | .error _ => (.serverError, s)

/-! ## `POST /routes/webhook` -/

/-- The Stripe events the webhook handler distinguishes. -/
inductive StripeEvent where
  | paymentIntentSucceeded (pi : PaymentIntent)
  | checkoutSessionCompleted (client_reference_id : Option String)
      (payment_intent : Option String) (id : String)
  | other
deriving Repr, DecidableEq

/-- Outcome of `POST /routes/webhook`. -/
inductive WebhookResult where
  | noSecret
  | badSignature
  | badRequest (msg : String)
  | alreadyExists
  | created
  | createFailed
  | ignored
deriving Repr, DecidableEq

/-- HTTP status of each webhook outcome. -/
def WebhookResult.httpStatus : WebhookResult → Nat
  | .noSecret => 500
  | .badSignature => 400
  | .badRequest _ => 400
  | .alreadyExists => 200
  | .created => 200
  | .createFailed => 500
  | .ignored => 200

/-- Is the response body success-shaped, i.e. `received: true`
(possibly with a message)? -/
def WebhookResult.successShaped : WebhookResult → Bool
  | .alreadyExists => true
  | .created => true
  | .ignored => true
  | _ => false

/-- `paymentIntent.metadata.purchase_type || 'bundle'`. -/
def effectivePurchaseType : Option String → String
  | some pt => if pt == "" then "bundle" else pt
  | none => "bundle"

/-- The expiry the webhook grants on `payment_intent.succeeded`: 3 months for
purchase type `bundle` or an amount at/above 1399, 30 days otherwise. -/
def webhookPIExpiry (pi : PaymentIntent) (now : Int) : Int :=
  if effectivePurchaseType pi.metadata_purchase_type == "bundle"
      || pi.amount ≥ 1399 then
    addMonthsJS now 3
  else
    addDaysJS now 30

/-- `POST /routes/webhook`.  Guards: configured webhook secret (otherwise 500),
valid signature (`stripe.webhooks.constructEvent`, otherwise 400).  On
`payment_intent.succeeded`: requires a metadata user id, returns
`received: true` when a license already exists, otherwise grants 3 months for
purchase type `bundle` or amounts at/above 1399 and 30 days below, and answers
500 when the store fails.  On `checkout.session.completed`: requires a client
reference id and inserts directly, with no pre-insert existence check. -/
def webhook (secretConfigured sigValid dbDown : Bool) (event : StripeEvent)
    (s : DBState) (now : Int) : WebhookResult × DBState :=
  if !secretConfigured then (.noSecret, s)
  else if !sigValid then (.badSignature, s)
  else
    match event with
    | .paymentIntentSucceeded pi =>
      match pi.metadata_user_id with
      | none => (.badRequest "No user_id in payment intent", s)
      | some userId =>
        if dbDown then (.createFailed, s)
        else if s.licenses.any (fun l => l.stripe_payment_intent_id == some pi.id) then
          (.alreadyExists, s)
        else
          match insertLicense s
              { user_id := userId, stripe_payment_intent_id := some pi.id,
                stripe_checkout_session_id := none,
                expires_at := webhookPIExpiry pi now, is_active := true } with
          | .ok s2 => (.created, s2)
          | .error _ => (.createFailed, s)
    | .checkoutSessionCompleted cref payIntent sessId =>
      match cref with
      | none => (.badRequest "No user_id in session", s)
      | some userId =>
        if dbDown then (.createFailed, s)
        else
          match insertLicense s
              { user_id := userId, stripe_payment_intent_id := payIntent,
                stripe_checkout_session_id := some sessId,
                expires_at := addMonthsJS now 3, is_active := true } with
          | .ok s2 => (.created, s2)
          | .error _ => (.createFailed, s)
    | .other => (.ignored, s)

/-! ## `POST /routes/generate-link` -/

/-- Outcome of `POST /routes/generate-link`. -/
inductive GenLinkResult where
  | missingFields
  | noLicense
  | serverError
  | ok (token : String) (expiresAt : Int)
deriving Repr, DecidableEq

/-- HTTP status of each `generate-link` outcome. -/
def GenLinkResult.httpStatus : GenLinkResult → Nat
  | .missingFields => 400
  | .noLicense => 403
  | .serverError => 500
  | .ok _ _ => 200

/-- `POST /routes/generate-link`.  `!centreName || !routeNumber` rejects absent
or falsy fields (empty string, zero); then the active-license gate (403); then
expiry from settings and an insert into `route_links` — a store failure or a
token collision there throws and becomes 500. -/
def generateLink (env : AppEnv) (s : DBState) (settings : Option Int) (now : Int)
    (userId : String) (centreName : Option String) (routeNumber : Option Int)
    (newToken : String) : GenLinkResult × DBState :=
  if centreName.getD "" == "" || routeNumber.getD 0 == 0 then
    (.missingFields, s)
  else
    match hasActiveLicense env s now userId with
    | none => (.noLicense, s)
    | some _ =>
      let hours := getLinkExpiryHours env.dbDown settings
      let expiresAt := addHoursJS now hours
      if env.dbDown then (.serverError, s)
      else if s.links.any (fun l => l.link_token == newToken) then (.serverError, s)
      else
        (.ok newToken expiresAt,
         { s with links := s.links ++
            [{ user_id := userId, centre_name := centreName.getD "",
               route_number := routeNumber.getD 0, link_token := newToken,
               expires_at := expiresAt, is_used := false,
               last_accessed_at := none }] })

/-! ## `GET /routes/validate-link/:token` -/

/-- Outcome of `GET /routes/validate-link/:token` (always HTTP 200; the body
carries `valid` and a reason). -/
inductive ValidateResult where
  | notFound
  | expired
  | valid (centreName : String) (routeNumber : Int)
deriving Repr, DecidableEq

/-- `GET /routes/validate-link/:token`.  The lookup is scoped to
`link_token = token AND user_id = userId`; no row means `Link not found`;
`expires_at` strictly before now means `Link has expired`; otherwise the
handler updates `last_accessed_at = NOW(), is_used = true` for every row with
that token (the UPDATE is keyed by token alone) and answers with the stored
centre name and route number. -/
def validateLink (s : DBState) (now : Int) (userId : String) (token : String) :
    ValidateResult × DBState :=
  match s.links.find? (fun l => l.link_token == token && l.user_id == userId) with
  | none => (.notFound, s)
  | some link =>
    if link.expires_at < now then (.expired, s)
    else
      (.valid link.centre_name link.route_number,
       { s with links := s.links.map (fun l =>
          if l.link_token == token then
            { l with last_accessed_at := some now, is_used := true }
          else l) })

/-! ## `POST /routes/generate-naas-token` and `POST /routes/generate-tallaght-token` -/

/-- Outcome of the 30-minute access-token mints. -/
inductive GenTokenResult where
  | noLicense
  | serverError
  | ok (token : String) (expiresAt : Int)
deriving Repr, DecidableEq

/-- HTTP status of each access-token-mint outcome. -/
def GenTokenResult.httpStatus : GenTokenResult → Nat
  | .noLicense => 403
  | .serverError => 500
  | .ok _ _ => 200

/-- `POST /routes/generate-naas-token`: active-license gate (403), then a
30-minute token inserted into `naas_access_tokens`; a store failure or token
collision throws and becomes 500. -/
def generateNaasToken (env : AppEnv) (s : DBState) (now : Int) (userId : String)
    (newToken : String) : GenTokenResult × DBState :=
  match hasActiveLicense env s now userId with
  | none => (.noLicense, s)
  | some _ =>
    let expiresAt := addMinutesJS now 30
    if env.dbDown then (.serverError, s)
    else if s.naasTokens.any (fun t => t.access_token == newToken) then
      (.serverError, s)
    else
      (.ok newToken expiresAt,
       { s with naasTokens := s.naasTokens ++
          [{ user_id := userId, access_token := newToken,
             expires_at := expiresAt, is_used := false,
             last_accessed_at := none }] })

/-- `POST /routes/generate-tallaght-token`: textually identical to the Naas
mint (it reuses the `naas_access_tokens` table). -/
def generateTallaghtToken (env : AppEnv) (s : DBState) (now : Int)
    (userId : String) (newToken : String) : GenTokenResult × DBState :=
  match hasActiveLicense env s now userId with
  | none => (.noLicense, s)
  | some _ =>
    let expiresAt := addMinutesJS now 30
    if env.dbDown then (.serverError, s)
    else if s.naasTokens.any (fun t => t.access_token == newToken) then
      (.serverError, s)
    else
      (.ok newToken expiresAt,
       { s with naasTokens := s.naasTokens ++
          [{ user_id := userId, access_token := newToken,
             expires_at := expiresAt, is_used := false,
             last_accessed_at := none }] })

/-! ## The license-creation paths, abstracted for the uniqueness invariant -/

/-- One call to a license-creation path: either the synchronous
`confirm-payment` handler or the webhook handler (with its guards and event). -/
inductive CreatorCall where
  | confirm (stripeLookup : String → Option PaymentIntent) (userId : String)
      (paymentIntentId : Option String)
  | hook (secretConfigured sigValid dbDown : Bool) (event : StripeEvent)

/-- The store after running one license-creation call. -/
def CreatorCall.run (c : CreatorCall) (s : DBState) (now : Int) : DBState :=
  match c with
  | .confirm lookup userId piId => (confirmPayment lookup s now userId piId).2
  | .hook sc sv dd ev => (webhook sc sv dd ev s now).2

/-! ## Helper lemmas -/

lemma countPI_append (ls : List License) (l : License) (p : String) :
    countPI (ls ++ [l]) p =
      countPI ls p + (if l.stripe_payment_intent_id == some p then 1 else 0) := by
  simp only [countPI, List.filter_append, List.length_append]
  cases h : (l.stripe_payment_intent_id == some p) <;> simp [List.filter_cons, h]

lemma countPI_zero_of_not_piConflict (ls : List License) (p : String)
    (h : piConflict ls (some p) = false) : countPI ls p = 0 := by
  simp only [piConflict, List.any_eq_false] at h
  simp only [countPI, List.length_eq_zero, List.filter_eq_nil_iff]
  intro a ha
  exact h a ha

lemma piConflict_of_countPI_pos (ls : List License) (p : String)
    (h : 0 < countPI ls p) : piConflict ls (some p) = true := by
  by_contra hc
  rw [Bool.not_eq_true] at hc
  rw [countPI_zero_of_not_piConflict ls p hc] at h
  exact Nat.lt_irrefl 0 h

lemma insertLicense_ok_licenses (s s2 : DBState) (l : License)
    (h : insertLicense s l = .ok s2) :
    s2.licenses = s.licenses ++ [l] ∧
      piConflict s.licenses l.stripe_payment_intent_id = false := by
  unfold insertLicense at h
  split at h
  · exact absurd h (by simp)
  · next hcond =>
    simp only [Bool.or_eq_true, not_or, Bool.not_eq_true] at hcond
    cases h
    exact ⟨rfl, hcond.1⟩

lemma insert_countPI_le (s s2 : DBState) (l : License) (p : String)
    (h : insertLicense s l = .ok s2) :
    countPI s2.licenses p ≤ max (countPI s.licenses p) 1 := by
  obtain ⟨happ, hconf⟩ := insertLicense_ok_licenses s s2 l h
  rw [happ, countPI_append]
  by_cases hp : l.stripe_payment_intent_id = some p
  · rw [hp] at hconf
    rw [countPI_zero_of_not_piConflict s.licenses p hconf]
    simp [hp]
  · have hb : (l.stripe_payment_intent_id == some p) = false := by simp [hp]
    rw [hb]
    simp only [Bool.false_eq_true, if_false, Nat.add_zero]
    exact le_max_left _ _

lemma insert_countPI_preserve (s s2 : DBState) (l : License) (p : String)
    (h : insertLicense s l = .ok s2) (h1 : countPI s.licenses p = 1) :
    countPI s2.licenses p = 1 := by
  obtain ⟨happ, hconf⟩ := insertLicense_ok_licenses s s2 l h
  rw [happ, countPI_append, h1]
  by_cases hp : l.stripe_payment_intent_id = some p
  · rw [hp] at hconf
    rw [countPI_zero_of_not_piConflict s.licenses p hconf] at h1
    exact absurd h1 (by simp)
  · have hb : (l.stripe_payment_intent_id == some p) = false := by simp [hp]
    rw [hb]
    simp

lemma confirmPayment_state (lookup : String → Option PaymentIntent) (s : DBState)
    (now : Int) (u : String) (pid : Option String) :
    (confirmPayment lookup s now u pid).2 = s ∨
      ∃ l, insertLicense s l = .ok (confirmPayment lookup s now u pid).2 := by
  unfold confirmPayment
  split
  · exact Or.inl rfl
  · split
    · exact Or.inl rfl
    · split
      · exact Or.inl rfl
      · split
        · exact Or.inl rfl
        · split
          · exact Or.inl rfl
          · split
            · next s2 heq => exact Or.inr ⟨_, heq⟩
            · exact Or.inl rfl

lemma webhook_state (sc sv dd : Bool) (ev : StripeEvent) (s : DBState) (now : Int) :
    (webhook sc sv dd ev s now).2 = s ∨
      ∃ l, insertLicense s l = .ok (webhook sc sv dd ev s now).2 := by
  unfold webhook
  split
  · exact Or.inl rfl
  · split
    · exact Or.inl rfl
    · split
      · split
        · exact Or.inl rfl
        · split
          · exact Or.inl rfl
          · split
            · exact Or.inl rfl
            · split
              · next s2 heq => exact Or.inr ⟨_, heq⟩
              · exact Or.inl rfl
      · split
        · exact Or.inl rfl
        · split
          · exact Or.inl rfl
          · split
            · next s2 heq => exact Or.inr ⟨_, heq⟩
            · exact Or.inl rfl
      · exact Or.inl rfl

lemma creatorCall_state (c : CreatorCall) (s : DBState) (now : Int) :
    c.run s now = s ∨ ∃ l, insertLicense s l = .ok (c.run s now) := by
  cases c with
  | confirm lookup u pid => exact confirmPayment_state lookup s now u pid
  | hook sc sv dd ev => exact webhook_state sc sv dd ev s now

lemma topByExpiry_eq_none (ls : List License) :
    topByExpiry ls = none ↔ ls = [] := by
  cases ls with
  | nil => simp [topByExpiry]
  | cons l ls =>
    simp only [topByExpiry]
    constructor
    · intro h
      split at h
      · exact absurd h (by simp)
      · split at h <;> exact absurd h (by simp)
    · intro h
      exact absurd h (by simp)

lemma topByExpiry_mem (ls : List License) :
    ∀ l, topByExpiry ls = some l → l ∈ ls := by
  induction ls with
  | nil => intro l h; simp [topByExpiry] at h
  | cons a as ih =>
    intro l h
    simp only [topByExpiry] at h
    split at h
    · have ha : a = l := Option.some.inj h
      subst ha
      exact List.mem_cons_self a as
    · next b hb =>
      split at h
      · have hbl : b = l := Option.some.inj h
        subst hbl
        exact List.mem_cons_of_mem a (ih b hb)
      · have ha : a = l := Option.some.inj h
        subst ha
        exact List.mem_cons_self a as

lemma topByExpiry_max (ls : List License) :
    ∀ l, topByExpiry ls = some l → ∀ x ∈ ls, x.expires_at ≤ l.expires_at := by
  induction ls with
  | nil => intro l h; simp [topByExpiry] at h
  | cons a as ih =>
    intro l h x hx
    simp only [topByExpiry] at h
    split at h
    · next hnone =>
      have ha : a = l := Option.some.inj h
      subst ha
      rw [topByExpiry_eq_none] at hnone
      subst hnone
      rcases List.mem_cons.mp hx with hxa | hxs
      · exact hxa ▸ le_refl _
      · exact absurd hxs (by simp)
    · next b hb =>
      split at h
      · next hgt =>
        have hbl : b = l := Option.some.inj h
        subst hbl
        rcases List.mem_cons.mp hx with hxa | hxs
        · exact hxa ▸ le_of_lt hgt
        · exact ih b hb x hxs
      · next hngt =>
        have ha : a = l := Option.some.inj h
        subst ha
        rcases List.mem_cons.mp hx with hxa | hxs
        · exact hxa ▸ le_refl _
        · exact le_trans (ih b hb x hxs) (le_of_not_lt hngt)

/-! ## Example data used by witnesses and counterexamples -/

/-- A succeeded full-bundle PaymentIntent of user 7. -/
def exPI : PaymentIntent :=
  { id := "pi_1", metadata_user_id := some "7",
    metadata_purchase_type := some "bundle", amount := 1399,
    status := "succeeded" }

/-- A succeeded PaymentIntent below the bundle threshold whose metadata has no
`purchase_type`. -/
def exPIsmall : PaymentIntent :=
  { id := "pi_1", metadata_user_id := some "7",
    metadata_purchase_type := none, amount := 299, status := "succeeded" }

/-- A Stripe lookup knowing only `pi_1`. -/
def exStripe : String → Option PaymentIntent :=
  fun s => if s == "pi_1" then some exPI else none

/-- The empty store. -/
def exState0 : DBState := { licenses := [], links := [], naasTokens := [] }

/-- An active, unexpired license of user 7 for payment `pi_1`. -/
def exLic1 : License :=
  { user_id := "7", stripe_payment_intent_id := some "pi_1",
    stripe_checkout_session_id := none, expires_at := 200000,
    is_active := true }

/-- A store already holding `exLic1`. -/
def exState1 : DBState := { licenses := [exLic1], links := [], naasTokens := [] }

/-- Default environment: no admins, store healthy. -/
def exEnv : AppEnv := { adminUserIds := [], dbDown := false, isActiveMissing := false }

/-- Environment with the store unreachable. -/
def exEnvDown : AppEnv := { adminUserIds := [], dbDown := true, isActiveMissing := false }

/-- Environment whose admin allow-list holds user 9. -/
def exEnvAdmin : AppEnv := { adminUserIds := ["9"], dbDown := false, isActiveMissing := false }

/-- A link of user 7 for (Naas, 3) that has already been used. -/
def exLink1 : RouteLink :=
  { user_id := "7", centre_name := "Naas", route_number := 3,
    link_token := "tok_1", expires_at := 1000, is_used := true,
    last_accessed_at := some 1 }

/-- A store holding only `exLink1`. -/
def exStateL : DBState := { licenses := [], links := [exLink1], naasTokens := [] }

/-! ## Claims -/

/-- C1: for every payment reference, at most one License row ever exists in
`route_licenses`: any license-creation call (synchronous confirm-payment or
webhook) preserves "at most one row per `stripe_payment_intent_id`", and once
a first call has inserted the row for a reference, a second call of either
kind leaves exactly one row for it — the duplicate insert being stopped by the
pre-insert existence check and by the UNIQUE constraint modelled in
`insertLicense`. -/
theorem C1_unique_license_per_payment_reference (p : String) (s : DBState)
    (now now2 : Int) (c1 c2 : CreatorCall)
    (h0 : countPI s.licenses p ≤ 1) :
    countPI ((c1.run s now).licenses) p ≤ 1 ∧
      (countPI s.licenses p = 0 →
        countPI ((c1.run s now).licenses) p = 1 →
        countPI ((c2.run (c1.run s now) now2).licenses) p = 1) := by
  constructor
  · rcases creatorCall_state c1 s now with heq | ⟨l, hins⟩
    · rw [heq]; exact h0
    · exact le_trans (insert_countPI_le s _ l p hins) (max_le h0 le_rfl)
  · intro _ h1
    rcases creatorCall_state c2 (c1.run s now) now2 with heq | ⟨l, hins⟩
    · rw [heq]; exact h1
    · exact insert_countPI_preserve _ _ l p hins h1

/-- Witness for C1: from the empty store, the synchronous confirm of `pi_1`
followed by the webhook delivery for the same intent leaves exactly one
license row for `pi_1`. -/
theorem C1_unique_license_per_payment_reference_witness :
    countPI ((CreatorCall.run (.hook true true false (.paymentIntentSucceeded exPI))
        (CreatorCall.run (.confirm exStripe "7" (some "pi_1")) exState0 0) 0).licenses)
      "pi_1" = 1 := by
  exact (C1_unique_license_per_payment_reference "pi_1" exState0 0 0
      (.confirm exStripe "7" (some "pi_1"))
      (.hook true true false (.paymentIntentSucceeded exPI))
      (by decide)).2 (by decide) (by decide)

/-- C7: a webhook request with no configured secret answers 500 and changes
nothing; one with an invalid signature answers 400 and changes nothing — in
particular no license row is created from a delivery failing verification. -/
theorem C7_webhook_secret_and_signature_guards (sv dd : Bool) (ev : StripeEvent)
    (s : DBState) (now : Int) :
    webhook false sv dd ev s now = (.noSecret, s) ∧
      WebhookResult.noSecret.httpStatus = 500 ∧
      webhook true false dd ev s now = (.badSignature, s) ∧
      WebhookResult.badSignature.httpStatus = 400 ∧
      (webhook true false dd ev s now).2.licenses = s.licenses := by
  refine ⟨by simp [webhook], rfl, by simp [webhook], rfl, by simp [webhook]⟩

/-- C2 counterexample: with a license already present for `pi_1`, the claim
says a second creation call returns a success-shaped response on both the
synchronous confirm path and the webhook path (legacy included); in fact the
synchronous confirm answers a 400 error and the legacy
`checkout.session.completed` path answers 500 (the blind insert trips the
UNIQUE constraint). -/
theorem C2_counterexample :
    (confirmPayment exStripe exState1 0 "7" (some "pi_1")).1 =
        .badRequest "License already created for this payment" ∧
      (confirmPayment exStripe exState1 0 "7" (some "pi_1")).1.httpStatus = 400 ∧
      (webhook true true false
          (.checkoutSessionCompleted (some "7") (some "pi_1") "cs_9")
          exState1 0).1.httpStatus = 500 := by
  decide

/-- C2 amended: a duplicate creation call is a success-shaped no-op only on
the webhook `payment_intent.succeeded` path; the synchronous confirm-payment
path answers 400 "License already created for this payment", and the legacy
`checkout.session.completed` path (which has no existence check) trips the
UNIQUE constraint and answers 500.  No path inserts a second row. -/
theorem C2_amended_duplicate_behaviour (s : DBState) (now : Int)
    (p u sid : String) (pi : PaymentIntent)
    (lookup : String → Option PaymentIntent)
    (hdup : (s.licenses.any fun l => l.stripe_payment_intent_id == some p) = true)
    (hpi : pi.id = p) (huid : pi.metadata_user_id = some u)
    (hlk : lookup p = some pi) (hst : pi.status = "succeeded") :
    webhook true true false (.paymentIntentSucceeded pi) s now =
        (.alreadyExists, s) ∧
      WebhookResult.alreadyExists.successShaped = true ∧
      WebhookResult.alreadyExists.httpStatus = 200 ∧
      confirmPayment lookup s now u (some p) =
        (.badRequest "License already created for this payment", s) ∧
      (ConfirmResult.badRequest "License already created for this payment").httpStatus
          = 400 ∧
      webhook true true false (.checkoutSessionCompleted (some u) (some p) sid) s now =
        (.createFailed, s) ∧
      WebhookResult.createFailed.httpStatus = 500 := by
  refine ⟨?_, rfl, rfl, ?_, rfl, ?_, rfl⟩
  · unfold webhook
    simp [huid, hpi, hdup]
  · unfold confirmPayment
    simp [hlk, huid, hst, hdup]
  · unfold webhook
    simp [insertLicense, piConflict, hdup]

/-- Witness for the amended C2 at the store already holding `pi_1`. -/
theorem C2_amended_duplicate_behaviour_witness :
    webhook true true false (.paymentIntentSucceeded exPI) exState1 0 =
        (.alreadyExists, exState1) ∧
      confirmPayment exStripe exState1 0 "7" (some "pi_1") =
        (.badRequest "License already created for this payment", exState1) ∧
      webhook true true false
          (.checkoutSessionCompleted (some "7") (some "pi_1") "cs_9") exState1 0 =
        (.createFailed, exState1) := by
  have h := C2_amended_duplicate_behaviour exState1 0 "pi_1" "7" "cs_9" exPI exStripe
    (by decide) (by decide) (by decide) (by decide) (by decide)
  exact ⟨h.1, h.2.2.2.1, h.2.2.2.2.2.1⟩

/-- C3 counterexample: a validly signed `payment_intent.succeeded` event with
a user id and an amount below the 1399 threshold, whose metadata carries no
`purchase_type`, creates a license expiring 3 months out, not 30 days out as
the claim requires (the code defaults the purchase type to `bundle`). -/
theorem C3_counterexample :
    exPIsmall.amount < 1399 ∧
      (webhook true true false (.paymentIntentSucceeded exPIsmall)
          exState0 0).2.licenses =
        [{ user_id := "7", stripe_payment_intent_id := some "pi_1",
           stripe_checkout_session_id := none, expires_at := addMonthsJS 0 3,
           is_active := true }] ∧
      addMonthsJS 0 3 ≠ addDaysJS 0 30 := by
  decide

/-- C3 amended: a validly signed `payment_intent.succeeded` delivery with a
user id and no existing license inserts exactly one license whose expiry is 3
months out when the metadata purchase type is `bundle` (or absent, the
default) or the amount is at/above 1399, and 30 days out only when a
non-`bundle` purchase type is present and the amount is below 1399. -/
theorem C3_amended_webhook_expiry_rule (pi : PaymentIntent) (s : DBState)
    (now : Int) (u : String)
    (huid : pi.metadata_user_id = some u)
    (hnodup : (s.licenses.any fun l => l.stripe_payment_intent_id == some pi.id)
        = false) :
    webhook true true false (.paymentIntentSucceeded pi) s now =
      (.created, { s with licenses := s.licenses ++
        [{ user_id := u, stripe_payment_intent_id := some pi.id,
           stripe_checkout_session_id := none,
           expires_at := webhookPIExpiry pi now, is_active := true }] }) ∧
    (effectivePurchaseType pi.metadata_purchase_type ≠ "bundle" →
      pi.amount < 1399 → webhookPIExpiry pi now = addDaysJS now 30) ∧
    (effectivePurchaseType pi.metadata_purchase_type = "bundle" ∨
        pi.amount ≥ 1399 → webhookPIExpiry pi now = addMonthsJS now 3) := by
  refine ⟨?_, ?_, ?_⟩
  · unfold webhook
    simp [huid, hnodup, insertLicense, piConflict, csConflict]
  · intro h1 h2
    unfold webhookPIExpiry
    simp [h1, h2, Int.not_le.mpr h2]
  · intro h
    rcases h with h | h
    · unfold webhookPIExpiry
      simp [h]
    · unfold webhookPIExpiry
      simp [h]

/-- Witness for the amended C3: the bundle intent `exPI` gets a 3-month
license from the empty store. -/
theorem C3_amended_webhook_expiry_rule_witness :
    webhook true true false (.paymentIntentSucceeded exPI) exState0 0 =
      (.created, { exState0 with licenses := exState0.licenses ++
        [{ user_id := "7", stripe_payment_intent_id := some "pi_1",
           stripe_checkout_session_id := none,
           expires_at := webhookPIExpiry exPI 0, is_active := true }] }) ∧
    webhookPIExpiry exPI 0 = addMonthsJS 0 3 := by
  have h := C3_amended_webhook_expiry_rule exPI exState0 0 "7" (by decide) (by decide)
  exact ⟨h.1, h.2.2 (Or.inr (by decide))⟩

/-- C8 counterexample: a delivery whose signature verification passes but
whose downstream license creation fails for a non-duplication reason (the
store is unreachable) is answered with 500, not with the 200
acknowledgement the claim requires. -/
theorem C8_counterexample :
    (webhook true true true (.paymentIntentSucceeded exPI) exState0 0).1 =
        .createFailed ∧
      (webhook true true true (.paymentIntentSucceeded exPI) exState0 0).1.httpStatus
        = 500 := by
  decide

/-- C8 amended: once signature verification passes, the handler answers 200
when creation succeeds, when the license already exists (duplicate delivery)
and for unhandled event types; but a downstream creation failure for a
non-duplication reason is answered 500. -/
theorem C8_amended_webhook_response_codes (pi : PaymentIntent) (s : DBState)
    (now : Int) (u : String) (dd : Bool)
    (huid : pi.metadata_user_id = some u) :
    ((s.licenses.any fun l => l.stripe_payment_intent_id == some pi.id) = true →
      (webhook true true false (.paymentIntentSucceeded pi) s now).1 =
          .alreadyExists ∧
        WebhookResult.alreadyExists.httpStatus = 200) ∧
    ((s.licenses.any fun l => l.stripe_payment_intent_id == some pi.id) = false →
      (webhook true true false (.paymentIntentSucceeded pi) s now).1 = .created ∧
        WebhookResult.created.httpStatus = 200) ∧
    ((webhook true true true (.paymentIntentSucceeded pi) s now).1 = .createFailed ∧
      WebhookResult.createFailed.httpStatus = 500) ∧
    ((webhook true true dd .other s now).1 = .ignored ∧
      WebhookResult.ignored.httpStatus = 200) := by
  refine ⟨?_, ?_, ⟨?_, rfl⟩, ⟨?_, rfl⟩⟩
  · intro hdup
    refine ⟨?_, rfl⟩
    unfold webhook
    simp [huid, hdup]
  · intro hnodup
    refine ⟨?_, rfl⟩
    unfold webhook
    simp [huid, hnodup, insertLicense, piConflict, csConflict]
  · unfold webhook
    simp [huid]
  · unfold webhook
    simp

/-- Witness for the amended C8: duplicate delivery of `pi_1` against the store
already holding it answers 200, store outage answers 500. -/
theorem C8_amended_webhook_response_codes_witness :
    (webhook true true false (.paymentIntentSucceeded exPI) exState1 0).1 =
        .alreadyExists ∧
      (webhook true true true (.paymentIntentSucceeded exPI) exState1 0).1 =
        .createFailed := by
  have h := C8_amended_webhook_response_codes exPI exState1 0 "7" false (by decide)
  exact ⟨(h.1 (by decide)).1, h.2.2.1.1⟩

lemma mem_activeLicenseRows (s : DBState) (now : Int) (u : String) (l : License) :
    l ∈ activeLicenseRows s now u ↔
      l ∈ s.licenses ∧ l.user_id = u ∧ l.is_active = true ∧ now < l.expires_at := by
  simp [activeLicenseRows, List.mem_filter, and_assoc]

/-- C4: `hasActiveLicense` returns the synthetic permanent license for an
allow-listed id (this branch takes precedence); for any other id, whenever an
active unexpired row for the user exists some license is returned, any
returned license is a row of the store for this user — active, unexpired,
with maximal `expires_at` among such rows — and `none` is returned when every
active row of the user has `expires_at` in the past, a past-expiry license
being treated identically to no license. -/
theorem C4_hasActiveLicense_contract (env : AppEnv) (s : DBState) (now : Int)
    (u : String) (hdb : env.dbDown = false) (hdrift : env.isActiveMissing = false) :
    (env.adminUserIds.contains u = true →
      hasActiveLicense env s now u =
        some { expires_at := permanentExpiry, is_permanent := true }) ∧
    (env.adminUserIds.contains u = false →
      ((∃ l, l ∈ s.licenses ∧ l.user_id = u ∧ l.is_active = true ∧
          now < l.expires_at) →
        ∃ r, hasActiveLicense env s now u = some r) ∧
      (∀ r, hasActiveLicense env s now u = some r →
        r.is_permanent = false ∧
        ∃ l, l ∈ s.licenses ∧ l.user_id = u ∧ l.is_active = true ∧
          now < l.expires_at ∧ r.expires_at = l.expires_at ∧
          (∀ l2 ∈ s.licenses, l2.user_id = u → l2.is_active = true →
            now < l2.expires_at → l2.expires_at ≤ l.expires_at)) ∧
      ((∀ l ∈ s.licenses, l.user_id = u → l.is_active = true →
          l.expires_at ≤ now) →
        hasActiveLicense env s now u = none)) := by
  constructor
  · intro ha
    unfold hasActiveLicense
    rw [ha]
    simp
  · intro ha
    have hred : hasActiveLicense env s now u =
        match topByExpiry (activeLicenseRows s now u) with
        | some l => some { expires_at := l.expires_at, is_permanent := false }
        | none => none := by
      unfold hasActiveLicense
      rw [ha, hdb, hdrift]
      simp
    refine ⟨?_, ?_, ?_⟩
    · rintro ⟨l, hls, hu2, hact, hexp⟩
      have hmem : l ∈ activeLicenseRows s now u :=
        (mem_activeLicenseRows s now u l).mpr ⟨hls, hu2, hact, hexp⟩
      cases htop : topByExpiry (activeLicenseRows s now u) with
      | none =>
        rw [topByExpiry_eq_none] at htop
        rw [htop] at hmem
        exact absurd hmem (by simp)
      | some b =>
        exact ⟨{ expires_at := b.expires_at, is_permanent := false },
          by rw [hred, htop]⟩
    · intro r hr
      rw [hred] at hr
      cases htop : topByExpiry (activeLicenseRows s now u) with
      | none => rw [htop] at hr; exact absurd hr (by simp)
      | some l =>
        rw [htop] at hr
        have hrr : r = { expires_at := l.expires_at, is_permanent := false } :=
          (Option.some.inj hr).symm
        subst hrr
        have hmem := (mem_activeLicenseRows s now u l).mp
          (topByExpiry_mem _ l htop)
        obtain ⟨hls, hu2, hact, hexp⟩ := hmem
        refine ⟨rfl, l, hls, hu2, hact, hexp, rfl, ?_⟩
        intro l2 h2l h2u h2a h2e
        exact topByExpiry_max _ l htop l2
          ((mem_activeLicenseRows s now u l2).mpr ⟨h2l, h2u, h2a, h2e⟩)
    · intro hall
      rw [hred]
      have hfil : activeLicenseRows s now u = [] := by
        rw [activeLicenseRows, List.filter_eq_nil_iff]
        intro a ha2
        simp only [Bool.and_eq_true, beq_iff_eq, decide_eq_true_eq, not_and, and_imp]
        intro h1 h2
        exact Int.not_lt.mpr (hall a ha2 h1 h2)
      rw [hfil]
      rfl

/-- Witness for C4: user 7 holds a valid row, so some license is returned at
time 0, any returned license is non-permanent, and the allow-listed user 9
gets the permanent license. -/
theorem C4_hasActiveLicense_contract_witness :
    hasActiveLicense exEnvAdmin exState1 0 "9" =
        some { expires_at := permanentExpiry, is_permanent := true } ∧
      (∃ r, hasActiveLicense exEnv exState1 0 "7" = some r) ∧
      (ActiveLicense.mk 200000 false).is_permanent = false := by
  have h9 := C4_hasActiveLicense_contract exEnvAdmin exState1 0 "9" rfl rfl
  have h7 := C4_hasActiveLicense_contract exEnv exState1 0 "7" rfl rfl
  refine ⟨h9.1 (by decide), ?_, ?_⟩
  · exact (h7.2 (by decide)).1
      ⟨exLic1, by decide, by decide, by decide, by decide⟩
  · exact ((h7.2 (by decide)).2.1 (ActiveLicense.mk 200000 false)
      (by decide)).1.symm ▸ rfl

/-- C5: the link lookup is scoped to `(token, user)` — when no stored link
carries both this token and this user id (in particular when the token was
minted for another user), the result is the not-found failure and the store
is untouched; a found link yields the expired failure when `expires_at` is in
the past and otherwise `valid` with the stored centre name and route number,
as a side effect setting `is_used = true` and `last_accessed_at = now` on
every row with that token. -/
theorem C5_validate_link_scoping_and_side_effects (s : DBState) (now : Int)
    (u tok : String) :
    ((∀ l ∈ s.links, ¬(l.link_token = tok ∧ l.user_id = u)) →
      validateLink s now u tok = (.notFound, s)) ∧
    (∀ link, s.links.find? (fun l => l.link_token == tok && l.user_id == u)
        = some link →
      (link.expires_at < now → validateLink s now u tok = (.expired, s)) ∧
      (¬ link.expires_at < now →
        (validateLink s now u tok).1 = .valid link.centre_name link.route_number ∧
        ∀ l2 ∈ (validateLink s now u tok).2.links, l2.link_token = tok →
          l2.is_used = true ∧ l2.last_accessed_at = some now)) := by
  constructor
  · intro hno
    have hfind : s.links.find? (fun l => l.link_token == tok && l.user_id == u)
        = none := by
      rw [List.find?_eq_none]
      intro l hl
      have := hno l hl
      simp only [Bool.and_eq_true, beq_iff_eq]
      tauto
    unfold validateLink
    rw [hfind]
  · intro link hfind
    constructor
    · intro hex
      unfold validateLink
      rw [hfind]
      simp [hex]
    · intro hex
      have hval : validateLink s now u tok =
          (.valid link.centre_name link.route_number,
           { s with links := s.links.map (fun l =>
              if l.link_token == tok then
                { l with last_accessed_at := some now, is_used := true }
              else l) }) := by
        unfold validateLink
        rw [hfind]
        simp [hex]
      rw [hval]
      refine ⟨rfl, ?_⟩
      intro l2 hl2 htok
      simp only [List.mem_map] at hl2
      obtain ⟨l0, hl0, hf⟩ := hl2
      by_cases h0 : (l0.link_token == tok) = true
      · rw [if_pos h0] at hf
        rw [← hf]
        exact ⟨rfl, rfl⟩
      · rw [if_neg (by simp [h0])] at hf
        subst hf
        exact absurd (by simp [htok]) h0

/-- Witness for C5: user 8 validating user 7's token gets not-found; user 7
validating it before expiry gets `valid "Naas" 3` with the side effect
applied. -/
theorem C5_validate_link_scoping_and_side_effects_witness :
    validateLink exStateL 5 "8" "tok_1" = (.notFound, exStateL) ∧
      (validateLink exStateL 5 "7" "tok_1").1 = .valid "Naas" 3 := by
  have h8 := C5_validate_link_scoping_and_side_effects exStateL 5 "8" "tok_1"
  have h7 := C5_validate_link_scoping_and_side_effects exStateL 5 "7" "tok_1"
  refine ⟨h8.1 (by decide), ?_⟩
  exact ((h7.2 exLink1 (by decide)).2 (by decide)).1

/-- C6: a link already marked used (`is_used = true`) still validates
successfully for its owner before expiry, with the original centre name and
route number — only expiry, never the used flag, fails a validation. -/
theorem C6_used_flag_never_blocks_validation (s : DBState) (now : Int)
    (u tok : String) (link : RouteLink)
    (hfind : s.links.find? (fun l => l.link_token == tok && l.user_id == u)
        = some link)
    (hused : link.is_used = true)
    (hexp : ¬ link.expires_at < now) :
    (validateLink s now u tok).1 = .valid link.centre_name link.route_number := by
  unfold validateLink
  rw [hfind]
  simp [hexp]

/-- Witness for C6: `exLink1` is already used and validates again at time 5. -/
theorem C6_used_flag_never_blocks_validation_witness :
    (validateLink exStateL 5 "7" "tok_1").1 = .valid "Naas" 3 ∧
      exLink1.is_used = true := by
  refine ⟨?_, by decide⟩
  exact C6_used_flag_never_blocks_validation exStateL 5 "7" "tok_1" exLink1
    (by decide) (by decide) (by decide)

/-- C9 counterexample: a supplied amount of 0 is not a positive integer, yet
the handler does not reject with 400 — `requestedAmount || default` silently
falls back to the default bundle price 1399 and the request proceeds to
create an intent (HTTP 200). -/
theorem C9_counterexample :
    createPaymentIntent true exEnv exState0 0 "7" (some (.num 0)) (.num 1399) =
        .intent 1399 "bundle" ∧
      (createPaymentIntent true exEnv exState0 0 "7" (some (.num 0))
          (.num 1399)).httpStatus = 200 := by
  decide

/-- C9 amended: the handler rejects 400 "Invalid amount" exactly when the
effective price — the requested amount when truthy, otherwise the configured
default — is `NaN` or non-positive (so a supplied 0 or `NaN` falls back to
the default instead of being rejected); and a full-bundle request (amount
absent, falsy, or at/above 1399) while an active license exists is rejected
400 with the existing license's expiry. -/
theorem C9_amended_create_payment_intent_rules (env : AppEnv) (s : DBState)
    (now : Int) (u : String) (ba : Option JSNum) (dp : JSNum) :
    ((firstTruthy ba dp).invalidPrice = true →
      createPaymentIntent true env s now u ba dp = .invalidAmount) ∧
    ((firstTruthy ba dp).invalidPrice = false →
      createPaymentIntent true env s now u ba dp ≠ .invalidAmount) ∧
    (∀ lic, (firstTruthy ba dp).invalidPrice = false → bundleGuard ba = true →
      hasActiveLicense env s now u = some lic →
      createPaymentIntent true env s now u ba dp =
          .alreadyLicensed lic.expires_at ∧
        (CPIResult.alreadyLicensed lic.expires_at).httpStatus = 400) ∧
    bundleGuard none = true ∧
    (∀ n : Int, n ≥ 1399 → bundleGuard (some (.num n)) = true) := by
  refine ⟨?_, ?_, ?_, rfl, ?_⟩
  · intro hv
    unfold createPaymentIntent
    simp [hv]
  · intro hv
    unfold createPaymentIntent
    simp only [Bool.not_true, if_false, hv, Bool.false_eq_true]
    split
    · split <;> simp
    · simp
  · intro lic hv hg hlic
    refine ⟨?_, rfl⟩
    unfold createPaymentIntent
    simp [hv, hg, hlic]
  · intro n hn
    simp only [bundleGuard, Bool.or_eq_true, beq_iff_eq, decide_eq_true_eq]
    right
    exact hn

/-- Witness for the amended C9: a negative amount is rejected 400, and a
bundle request by user 7 who already holds the license expiring at 200000 is
rejected with that expiry. -/
theorem C9_amended_create_payment_intent_rules_witness :
    createPaymentIntent true exEnv exState0 0 "7" (some (.num (-5))) (.num 1399) =
        .invalidAmount ∧
      createPaymentIntent true exEnv exState1 0 "7" none (.num 1399) =
        .alreadyLicensed 200000 := by
  have h1 := C9_amended_create_payment_intent_rules exEnv exState0 0 "7"
    (some (.num (-5))) (.num 1399)
  have h2 := C9_amended_create_payment_intent_rules exEnv exState1 0 "7"
    none (.num 1399)
  exact ⟨h1.1 (by decide),
    (h2.2.2.1 (ActiveLicense.mk 200000 false) (by decide) (by decide) (by decide)).1⟩

/-- C10: when the store fails for a reason other than the `is_active`
schema-drift case (here: unreachable), `hasActiveLicense` catches the error
and returns `none` for any non-allow-listed user — even one whose stored
license is valid — so every license-gated handler (`generate-link`,
`generate-naas-token`, `generate-tallaght-token`) answers 403 "No active
license" instead of a 500 error. -/
theorem C10_store_outage_fails_closed (env : AppEnv) (s : DBState)
    (settings : Option Int) (now : Int) (u c : String) (r : Int)
    (tok1 tok2 tok3 : String)
    (hadmin : env.adminUserIds.contains u = false)
    (hdown : env.dbDown = true) (hc : c ≠ "") (hr : r ≠ 0) :
    hasActiveLicense env s now u = none ∧
      (generateLink env s settings now u (some c) (some r) tok1).1 = .noLicense ∧
      GenLinkResult.noLicense.httpStatus = 403 ∧
      (generateNaasToken env s now u tok2).1 = .noLicense ∧
      (generateTallaghtToken env s now u tok3).1 = .noLicense ∧
      GenTokenResult.noLicense.httpStatus = 403 := by
  have h1 : hasActiveLicense env s now u = none := by
    unfold hasActiveLicense
    rw [hadmin, hdown]
    simp
  refine ⟨h1, ?_, rfl, ?_, ?_, rfl⟩
  · unfold generateLink
    simp [hc, hr, h1]
  · unfold generateNaasToken
    simp [h1]
  · unfold generateTallaghtToken
    simp [h1]

/-- Witness for C10: the store is down, user 7 holds a valid license row, and
every gated operation still answers "no active license". -/
theorem C10_store_outage_fails_closed_witness :
    hasActiveLicense exEnvDown exState1 0 "7" = none ∧
      (generateLink exEnvDown exState1 none 0 "7" (some "Naas") (some 3) "t1").1 =
        .noLicense ∧
      (generateNaasToken exEnvDown exState1 0 "7" "t2").1 = .noLicense := by
  have h := C10_store_outage_fails_closed exEnvDown exState1 none 0 "7" "Naas" 3
    "t1" "t2" "t3" (by decide) (by decide) (by decide) (by decide)
  exact ⟨h.1, h.2.1, h.2.2.2.1⟩
